import Mathlib

/-!
Shallow embedding of the wallet/session controller implemented in the Dapp
component (src/frontend/src/components/Dapp.vue): the reactive data fields,
the balance-polling timer lifecycle, wallet connection with network
validation, the accountsChanged and networkChanged listeners, and token
transfer submission with its error classification.

Asynchronous provider and contract calls are modelled by passing their
resolved values (or the errors they throw) into the corresponding state
transition function, so each method becomes a pure function on the
component state.
-/

set_option autoImplicit false

/-- Network id the dapp expects, Dapp.vue line 85. -/
def HARDHAT_NETWORK_ID : String := "1337"

/-- Error code indicating that the user canceled a transaction,
Dapp.vue line 88. -/
def ERROR_CODE_TX_REJECTED_BY_USER : Int := 4001

/-- Token name and symbol as stored by getTokenData. -/
structure TokenData where
  name : String
  symbol : String
  deriving DecidableEq

/-- The data payload of an RPC error, carrying the specific diagnostic
message. -/
structure ErrorData where
  message : String
  deriving DecidableEq

/-- An error thrown by the wallet provider or the contract binding: an
optional numeric code, a generic message, and an optional data payload. -/
structure RpcError where
  code : Option Int
  message : String
  data : Option ErrorData
  deriving DecidableEq

/-- Values the contract reads resolve to during one initialization: the
token name and symbol and the balance returned by the balanceOf call. -/
structure TokenEnv where
  name : String
  symbol : String
  balance : Nat
  deriving DecidableEq

/-- The component state. The first six fields are the reactive data fields
declared by initialData, Dapp.vue lines 91-103. pollDataInterval is the
interval handle assigned by startPollingData; it lives on the instance but
is not one of the data fields, so resetState does not touch it. The last
four fields instrument the runtime: activeTimers is the list of interval
timers installed by setInterval and not yet cleared by clearInterval,
nextTimerId is a fresh-id counter for interval handles, handlerCount is
how many times connectWallet has registered the accountsChanged and
networkChanged listeners, and balanceReads counts the balanceOf reads
issued by updateBalance. -/
structure DappState where
  tokenData : Option TokenData
  selectedAddress : Option String
  balance : Option Nat
  txBeingSent : Option String
  transactionError : Option RpcError
  networkError : Option String
  pollDataInterval : Option Nat
  activeTimers : List Nat
  nextTimerId : Nat
  handlerCount : Nat
  balanceReads : Nat
  deriving DecidableEq

/-- The state of a freshly created component: initialData for the data
fields, no timer installed, no listeners registered. -/
def initState : DappState :=
  { tokenData := none, selectedAddress := none, balance := none,
    txBeingSent := none, transactionError := none, networkError := none,
    pollDataInterval := none, activeTimers := [], nextTimerId := 0,
    handlerCount := 0, balanceReads := 0 }

/-- resetState, Dapp.vue lines 325-327: Object.assign of initialData over
the reactive data fields. Only the six data fields are overwritten; the
instance-level pollDataInterval handle is not a data field and survives. -/
def resetState (s : DappState) : DappState :=
  { s with tokenData := none, selectedAddress := none, balance := none,
           txBeingSent := none, transactionError := none,
           networkError := none }

/-- dismissTransactionError, Dapp.vue lines 301-303. -/
def dismissTransactionError (s : DappState) : DappState :=
  { s with transactionError := none }

/-- dismissNetworkError, Dapp.vue lines 306-308. -/
def dismissNetworkError (s : DappState) : DappState :=
  { s with networkError := none }

/-- getRpcErrorMessage, Dapp.vue lines 312-318: error.data.message when the
error carries a data payload, error.message otherwise. -/
def getRpcErrorMessage (error : RpcError) : String :=
  match error.data with
  | some d => d.message
  | none => error.message

/-- updateBalance, Dapp.vue lines 236-238, applied with the value the
balanceOf call resolved to. -/
def updateBalance (newBalance : Nat) (s : DappState) : DappState :=
  { s with balance := some newBalance, balanceReads := s.balanceReads + 1 }

/-- getTokenData, Dapp.vue lines 229-234, applied with the name and symbol
the contract reads resolved to. -/
def getTokenData (tok : TokenEnv) (s : DappState) : DappState :=
  { s with tokenData := some { name := tok.name, symbol := tok.symbol } }

/-- startPollingData, Dapp.vue lines 215-220: install a fresh interval
timer, overwriting the stored handle without clearing it, then run
updateBalance once immediately. -/
def startPollingData (tok : TokenEnv) (s : DappState) : DappState :=
  updateBalance tok.balance
    { s with pollDataInterval := some s.nextTimerId,
             activeTimers := s.nextTimerId :: s.activeTimers,
             nextTimerId := s.nextTimerId + 1 }

/-- stopPollingData, Dapp.vue lines 222-225: clearInterval on the stored
handle, a no-op when the handle is undefined, then forget the handle. -/
def stopPollingData (s : DappState) : DappState :=
  { s with
    activeTimers :=
      (match s.pollDataInterval with
       | some id => s.activeTimers.erase id
       | none => s.activeTimers),
    pollDataInterval := none }

/-- The initialize method, Dapp.vue lines 179-193 (the source name is a
reserved word here): store the address, fetch the token data, start
polling the balance. -/
def initializeDapp (userAddress : String) (tok : TokenEnv) (s : DappState) :
    DappState :=
  startPollingData tok
    (getTokenData tok { s with selectedAddress := some userAddress })

/-- checkNetwork, Dapp.vue lines 338-346: true when the wallet network
matches HARDHAT_NETWORK_ID; otherwise record the network error message and
return false. -/
def checkNetwork (networkVersion : String) (s : DappState) :
    DappState × Bool :=
  if networkVersion = HARDHAT_NETWORK_ID then (s, true)
  else
    ({ s with networkError := some "Please connect Metamask to Localhost:8545" },
     false)

/-- connectWallet, Dapp.vue lines 141-177: obtain the address from the
provider, validate the network and abort on mismatch, initialize, then
register the accountsChanged and networkChanged listeners. -/
def connectWallet (networkVersion userAddress : String) (tok : TokenEnv)
    (s : DappState) : DappState :=
  let checked := checkNetwork networkVersion s
  if checked.2 then
    let s2 := initializeDapp userAddress tok checked.1
    { s2 with handlerCount := s2.handlerCount + 1 }
  else checked.1

/-- The accountsChanged listener, Dapp.vue lines 159-170: stop polling,
then reset the state when the new address is undefined and re-initialize
otherwise. -/
def handleAccountsChanged (newAddress : Option String) (tok : TokenEnv)
    (s : DappState) : DappState :=
  let s1 := stopPollingData s
  match newAddress with
  | none => resetState s1
  | some a => initializeDapp a tok s1

/-- The networkChanged listener, Dapp.vue lines 173-176: stop polling and
reset the state. -/
def handleNetworkChanged (s : DappState) : DappState :=
  resetState (stopPollingData s)

/-- The result of the post-success updateBalance call inside
transferTokens: the balanceOf read resolves to a value or throws. -/
inductive UpdateResult where
  | ok (newBalance : Nat)
  | throws (e : RpcError)
  deriving DecidableEq

/-- How one run of transferTokens resolves: the transfer call throws
before a hash is obtained; the wait for confirmation throws; or a receipt
with the given status arrives, together with the result of the
post-success balanceOf read (consulted only when the status is nonzero). -/
inductive TransferOutcome where
  | submitThrows (e : RpcError)
  | waitThrows (hash : String) (e : RpcError)
  | confirmed (hash : String) (status : Nat) (upd : UpdateResult)
  deriving DecidableEq

/-- The catch block of transferTokens, Dapp.vue lines 282-292: an error
whose code is the user-rejection code is absorbed; any other error object
is stored as transactionError. -/
def catchTransferError (s : DappState) (error : RpcError) : DappState :=
  if error.code = some ERROR_CODE_TX_REJECTED_BY_USER then s
  else { s with transactionError := some error }

/-- transferTokens, Dapp.vue lines 243-298: clear any prior transaction
error, submit, record the hash, wait for the receipt; a status-0 receipt
throws the generic Error with message Transaction failed, which the catch
block stores; on success run updateBalance; the finally block clears
txBeingSent on every path. -/
def transferTokens (s : DappState) (out : TransferOutcome) : DappState :=
  let s0 := dismissTransactionError s
  let s2 :=
    match out with
    | .submitThrows e => catchTransferError s0 e
    | .waitThrows h e => catchTransferError { s0 with txBeingSent := some h } e
    | .confirmed h status upd =>
      let s1 := { s0 with txBeingSent := some h }
      if status = 0 then
        catchTransferError s1
          { code := none, message := "Transaction failed", data := none }
      else
        match upd with
        | .ok b => updateBalance b s1
        | .throws e => catchTransferError s1 e
  { s2 with txBeingSent := none }

/-- balanceZero, Dapp.vue lines 329-331, on a loaded balance; token
balances are unsigned, so the BigNumber value is a Nat. -/
def balanceZero (balance : Nat) : Bool :=
  balance == 0

/-- balanceGreaterZero, Dapp.vue lines 333-335, on a loaded balance. -/
def balanceGreaterZero (balance : Nat) : Bool :=
  decide (0 < balance)

/-- External events driving the controller: a connect click carrying the
wallet network id, the account the provider returns, and the values the
contract reads resolve to; a fired listener event; a poll tick of a given
installed timer with the balance it reads; a transfer submission; and the
two dismiss intents. -/
inductive Event where
  | connect (networkVersion userAddress : String) (tok : TokenEnv)
  | accountsChanged (newAddress : Option String) (tok : TokenEnv)
  | networkChanged
  | tick (id : Nat) (newBalance : Nat)
  | transfer (out : TransferOutcome)
  | dismissTxError
  | dismissNetError
  deriving DecidableEq

/-- One event processed by the component. The connect intent is only
dispatchable while no address is selected, because the template renders
the ConnectWallet component only in that case, Dapp.vue line 17. A
listener event runs one registered handler per connectWallet call that
registered the listeners, and a tick only fires for a timer that is still
installed. -/
def step (s : DappState) (ev : Event) : DappState :=
  match ev with
  | .connect nv addr tok =>
    if s.selectedAddress = none then connectWallet nv addr tok s else s
  | .accountsChanged a tok =>
    Nat.iterate (handleAccountsChanged a tok) s.handlerCount s
  | .networkChanged => Nat.iterate handleNetworkChanged s.handlerCount s
  | .tick id b => if id ∈ s.activeTimers then updateBalance b s else s
  | .transfer out => transferTokens s out
  | .dismissTxError => dismissTransactionError s
  | .dismissNetError => dismissNetworkError s

/-- States reachable from the fresh component by processing events. -/
inductive Reachable : DappState → Prop where
  | init : Reachable initState
  | next {s : DappState} (ev : Event) : Reachable s → Reachable (step s ev)

/-- Timer bookkeeping invariant: the stored interval handle accounts
exactly for the installed timers, so at most one timer is ever live; a
state with no selected address has no stored handle; and every installed
id is below the fresh-id counter. -/
def TimerInv (s : DappState) : Prop :=
  s.activeTimers = s.pollDataInterval.toList ∧
  (s.selectedAddress = none → s.pollDataInterval = none) ∧
  ∀ id ∈ s.activeTimers, id < s.nextTimerId

/-! Helper lemmas about the timer bookkeeping. -/

theorem timerInv_initState : TimerInv initState := by
  refine ⟨rfl, fun _ => rfl, ?_⟩
  intro id hid
  simp [initState] at hid

theorem stopPollingData_spec (s : DappState)
    (h1 : s.activeTimers = s.pollDataInterval.toList) :
    stopPollingData s = { s with pollDataInterval := none, activeTimers := [] } := by
  unfold stopPollingData
  cases hp : s.pollDataInterval with
  | none =>
    rw [hp] at h1
    simp only [Option.toList] at h1
    simp [h1]
  | some id =>
    rw [hp] at h1
    simp only [Option.toList] at h1
    simp [h1]

theorem initializeDapp_eq (addr : String) (tok : TokenEnv) (s : DappState) :
    initializeDapp addr tok s =
      { s with selectedAddress := some addr,
               tokenData := some { name := tok.name, symbol := tok.symbol },
               balance := some tok.balance,
               pollDataInterval := some s.nextTimerId,
               activeTimers := s.nextTimerId :: s.activeTimers,
               nextTimerId := s.nextTimerId + 1,
               balanceReads := s.balanceReads + 1 } := rfl

theorem timerInv_initializeDapp (addr : String) (tok : TokenEnv)
    (s : DappState) (h : s.activeTimers = []) :
    TimerInv (initializeDapp addr tok s) := by
  refine ⟨?_, ?_, ?_⟩
  · show s.nextTimerId :: s.activeTimers = (some s.nextTimerId).toList
    rw [h]
    rfl
  · intro hsel
    exact absurd hsel (Option.some_ne_none addr)
  · intro id hid
    have hid2 : id ∈ s.nextTimerId :: s.activeTimers := hid
    rw [h] at hid2
    have heq : id = s.nextTimerId := by simpa using hid2
    show id < s.nextTimerId + 1
    omega

theorem timerInv_handleAccountsChanged (a : Option String) (tok : TokenEnv)
    (s : DappState) (h : TimerInv s) :
    TimerInv (handleAccountsChanged a tok s) := by
  obtain ⟨h1, _, _⟩ := h
  unfold handleAccountsChanged
  rw [stopPollingData_spec s h1]
  cases a with
  | none =>
    refine ⟨rfl, fun _ => rfl, ?_⟩
    intro id hid
    simp [resetState] at hid
  | some addr =>
    exact timerInv_initializeDapp addr tok _ rfl

theorem timerInv_handleNetworkChanged (s : DappState) (h : TimerInv s) :
    TimerInv (handleNetworkChanged s) := by
  obtain ⟨h1, _, _⟩ := h
  unfold handleNetworkChanged
  rw [stopPollingData_spec s h1]
  refine ⟨rfl, fun _ => rfl, ?_⟩
  intro id hid
  simp [resetState] at hid

theorem timerInv_iterate (f : DappState → DappState)
    (hf : ∀ t, TimerInv t → TimerInv (f t)) (n : Nat) (s : DappState)
    (h : TimerInv s) : TimerInv (Nat.iterate f n s) := by
  induction n generalizing s with
  | zero => exact h
  | succ k ih =>
    rw [Function.iterate_succ_apply]
    exact ih (f s) (hf s h)

theorem catchTransferError_frame (s : DappState) (e : RpcError) :
    (catchTransferError s e).activeTimers = s.activeTimers ∧
    (catchTransferError s e).pollDataInterval = s.pollDataInterval ∧
    (catchTransferError s e).selectedAddress = s.selectedAddress ∧
    (catchTransferError s e).nextTimerId = s.nextTimerId := by
  unfold catchTransferError
  split <;> simp

theorem transferTokens_frame (s : DappState) (out : TransferOutcome) :
    (transferTokens s out).activeTimers = s.activeTimers ∧
    (transferTokens s out).pollDataInterval = s.pollDataInterval ∧
    (transferTokens s out).selectedAddress = s.selectedAddress ∧
    (transferTokens s out).nextTimerId = s.nextTimerId := by
  unfold transferTokens dismissTransactionError
  cases out with
  | submitThrows e =>
    have := catchTransferError_frame { s with transactionError := none } e
    simp_all
  | waitThrows h e =>
    have := catchTransferError_frame
      { s with transactionError := none, txBeingSent := some h } e
    simp_all
  | confirmed h status upd =>
    by_cases hs : status = 0
    · have := catchTransferError_frame
        { s with transactionError := none, txBeingSent := some h }
        { code := none, message := "Transaction failed", data := none }
      simp_all
    · cases upd with
      | ok b => simp [hs, updateBalance]
      | throws e =>
        have := catchTransferError_frame
          { s with transactionError := none, txBeingSent := some h } e
        simp_all

theorem timerInv_congr (s t : DappState)
    (ha : t.activeTimers = s.activeTimers)
    (hp : t.pollDataInterval = s.pollDataInterval)
    (hs : t.selectedAddress = s.selectedAddress)
    (hn : t.nextTimerId = s.nextTimerId)
    (h : TimerInv s) : TimerInv t := by
  obtain ⟨h1, h2, h3⟩ := h
  refine ⟨?_, ?_, ?_⟩
  · rw [ha, hp]
    exact h1
  · rw [hs, hp]
    exact h2
  · intro id hid
    rw [hn]
    exact h3 id (ha ▸ hid)

theorem connectWallet_match_eq (nv addr : String) (tok : TokenEnv)
    (s : DappState) (hnv : nv = HARDHAT_NETWORK_ID) :
    connectWallet nv addr tok s =
      { initializeDapp addr tok s with
        handlerCount := (initializeDapp addr tok s).handlerCount + 1 } := by
  subst hnv
  simp [connectWallet, checkNetwork]

theorem connectWallet_mismatch_eq (nv addr : String) (tok : TokenEnv)
    (s : DappState) (hnv : ¬nv = HARDHAT_NETWORK_ID) :
    connectWallet nv addr tok s =
      { s with networkError := some "Please connect Metamask to Localhost:8545" } := by
  simp [connectWallet, checkNetwork, hnv]

theorem timerInv_step (s : DappState) (ev : Event) (h : TimerInv s) :
    TimerInv (step s ev) := by
  cases ev with
  | connect nv addr tok =>
    simp only [step]
    by_cases hsel : s.selectedAddress = none
    · rw [if_pos hsel]
      have hpoll : s.pollDataInterval = none := h.2.1 hsel
      have htimers : s.activeTimers = [] := by
        rw [h.1, hpoll]
        rfl
      by_cases hnv : nv = HARDHAT_NETWORK_ID
      · rw [connectWallet_match_eq nv addr tok s hnv]
        exact timerInv_congr (initializeDapp addr tok s) _ rfl rfl rfl rfl
          (timerInv_initializeDapp addr tok s htimers)
      · rw [connectWallet_mismatch_eq nv addr tok s hnv]
        exact timerInv_congr s _ rfl rfl rfl rfl h
    · rw [if_neg hsel]
      exact h
  | accountsChanged a tok =>
    exact timerInv_iterate _ (timerInv_handleAccountsChanged a tok) _ s h
  | networkChanged =>
    exact timerInv_iterate _ timerInv_handleNetworkChanged _ s h
  | tick id b =>
    simp only [step]
    split
    · exact timerInv_congr s _ rfl rfl rfl rfl h
    · exact h
  | transfer out =>
    have hf := transferTokens_frame s out
    exact timerInv_congr s _ hf.1 hf.2.1 hf.2.2.1 hf.2.2.2 h
  | dismissTxError =>
    exact timerInv_congr s _ rfl rfl rfl rfl h
  | dismissNetError =>
    exact timerInv_congr s _ rfl rfl rfl rfl h

theorem timerInv_reachable {s : DappState} (h : Reachable s) : TimerInv s := by
  induction h with
  | init => exact timerInv_initState
  | next ev _ ih => exact timerInv_step _ ev ih

/-! Claim theorems. -/

/-- C1: every execution of transferTokens — confirmed success, failed
receipt, user rejection, or any thrown error — ends with txBeingSent
cleared, and any transactionError left over from a prior attempt is
cleared before the new transfer is submitted: the method first runs
dismissTransactionError, so the result never depends on the prior
transactionError. -/
theorem transferTokens_always_clears_pending (s : DappState)
    (out : TransferOutcome) :
    (transferTokens s out).txBeingSent = none ∧
    (dismissTransactionError s).transactionError = none ∧
    transferTokens s out =
      transferTokens { s with transactionError := none } out := by
  refine ⟨?_, rfl, rfl⟩
  cases out <;> rfl

/-- C2: an error whose code is the user-rejection code 4001 is the one and
only error kind transferTokens absorbs silently: on either throwing path
the resulting transactionError is unset exactly when the code is 4001, a
failed receipt always sets a transactionError, and txBeingSent is cleared
in every case. -/
theorem transferTokens_rejection_only_silent (s : DappState) (h : String)
    (e : RpcError) (upd : UpdateResult) :
    ((transferTokens s (.submitThrows e)).transactionError = none ↔
      e.code = some ERROR_CODE_TX_REJECTED_BY_USER) ∧
    ((transferTokens s (.waitThrows h e)).transactionError = none ↔
      e.code = some ERROR_CODE_TX_REJECTED_BY_USER) ∧
    (transferTokens s (.confirmed h 0 upd)).transactionError ≠ none ∧
    (transferTokens s (.submitThrows e)).txBeingSent = none ∧
    (transferTokens s (.waitThrows h e)).txBeingSent = none := by
  by_cases hc : e.code = some ERROR_CODE_TX_REJECTED_BY_USER <;>
    simp [transferTokens, catchTransferError, dismissTransactionError, hc]

/-- C3: when the confirmation receipt carries status 0, transferTokens
stores the generic thrown Error, whose message is Transaction failed, as
the transactionError, clears txBeingSent, and leaves the balance and the
count of balance reads unchanged — no balance refresh happens on that
path. -/
theorem transferTokens_failed_receipt_generic_error (s : DappState)
    (h : String) (upd : UpdateResult) :
    (transferTokens s (.confirmed h 0 upd)).transactionError =
      some { code := none, message := "Transaction failed", data := none } ∧
    (transferTokens s (.confirmed h 0 upd)).txBeingSent = none ∧
    (transferTokens s (.confirmed h 0 upd)).balance = s.balance ∧
    (transferTokens s (.confirmed h 0 upd)).balanceReads = s.balanceReads := by
  simp [transferTokens, catchTransferError, dismissTransactionError,
        ERROR_CODE_TX_REJECTED_BY_USER]

/-- C4, counterexample: for an error carrying a data payload whose message
differs from the generic message, the transactionError recorded by
transferTokens does not carry the message getRpcErrorMessage would
extract — the code stores the raw error object and never applies the
extraction helper. -/
theorem transferTokens_not_extracted_message_cex :
    ¬(Option.map RpcError.message
        (transferTokens initState (.submitThrows
          { code := none, message := "Internal JSON-RPC error.",
            data := some { message := "revert: Not enough tokens" } })).transactionError =
      some (getRpcErrorMessage
        { code := none, message := "Internal JSON-RPC error.",
          data := some { message := "revert: Not enough tokens" } })) := by
  decide

/-- C4, amended: for every transfer error other than user rejection,
transferTokens stores the error object itself as the transactionError, so
the failure carries the error's generic message field; the helper
getRpcErrorMessage, which would prefer the data.message diagnostic, is
not applied by transferTokens. -/
theorem transferTokens_stores_error_object (s : DappState) (h : String)
    (e : RpcError) (hc : e.code ≠ some ERROR_CODE_TX_REJECTED_BY_USER) :
    (transferTokens s (.submitThrows e)).transactionError = some e ∧
    (transferTokens s (.waitThrows h e)).transactionError = some e ∧
    Option.map RpcError.message
      (transferTokens s (.submitThrows e)).transactionError =
      some e.message := by
  simp [transferTokens, catchTransferError, dismissTransactionError, hc]

/-- C4, witness for the amended theorem at a concrete error. -/
theorem transferTokens_stores_error_object_witness :
    ({ code := some 3, message := "execution reverted",
       data := some { message := "revert: Not enough tokens" } } : RpcError).code ≠
      some ERROR_CODE_TX_REJECTED_BY_USER ∧
    ((transferTokens initState (.submitThrows
        { code := some 3, message := "execution reverted",
          data := some { message := "revert: Not enough tokens" } })).transactionError =
      some { code := some 3, message := "execution reverted",
             data := some { message := "revert: Not enough tokens" } } ∧
    (transferTokens initState (.waitThrows "0xhash"
        { code := some 3, message := "execution reverted",
          data := some { message := "revert: Not enough tokens" } })).transactionError =
      some { code := some 3, message := "execution reverted",
             data := some { message := "revert: Not enough tokens" } } ∧
    Option.map RpcError.message
      (transferTokens initState (.submitThrows
        { code := some 3, message := "execution reverted",
          data := some { message := "revert: Not enough tokens" } })).transactionError =
      some "execution reverted") :=
  ⟨by decide,
   transferTokens_stores_error_object initState "0xhash"
     { code := some 3, message := "execution reverted",
       data := some { message := "revert: Not enough tokens" } } (by decide)⟩

/-- C5: a connect attempt on a mismatched network records the network
error message and changes nothing else — the address stays as it was (so
an empty session stays empty), no polling timer is installed, no token
data or balance is fetched, and no listeners are registered:
initialization is aborted. -/
theorem connectWallet_network_mismatch_aborts (s : DappState)
    (nv addr : String) (tok : TokenEnv) (hnv : nv ≠ HARDHAT_NETWORK_ID) :
    (connectWallet nv addr tok s).networkError =
      some "Please connect Metamask to Localhost:8545" ∧
    (connectWallet nv addr tok s).selectedAddress = s.selectedAddress ∧
    (connectWallet nv addr tok s).pollDataInterval = s.pollDataInterval ∧
    (connectWallet nv addr tok s).activeTimers = s.activeTimers ∧
    (connectWallet nv addr tok s).handlerCount = s.handlerCount ∧
    (connectWallet nv addr tok s).tokenData = s.tokenData ∧
    (connectWallet nv addr tok s).balance = s.balance := by
  rw [connectWallet_mismatch_eq nv addr tok s hnv]
  exact ⟨rfl, rfl, rfl, rfl, rfl, rfl, rfl⟩

/-- C5, witness at a concrete mismatched network id. -/
theorem connectWallet_network_mismatch_aborts_witness :
    "1" ≠ HARDHAT_NETWORK_ID ∧
    ((connectWallet "1" "0xabc"
        { name := "My Token", symbol := "MTK", balance := 5 }
        initState).networkError =
      some "Please connect Metamask to Localhost:8545" ∧
    (connectWallet "1" "0xabc"
        { name := "My Token", symbol := "MTK", balance := 5 }
        initState).selectedAddress = initState.selectedAddress ∧
    (connectWallet "1" "0xabc"
        { name := "My Token", symbol := "MTK", balance := 5 }
        initState).pollDataInterval = initState.pollDataInterval ∧
    (connectWallet "1" "0xabc"
        { name := "My Token", symbol := "MTK", balance := 5 }
        initState).activeTimers = initState.activeTimers ∧
    (connectWallet "1" "0xabc"
        { name := "My Token", symbol := "MTK", balance := 5 }
        initState).handlerCount = initState.handlerCount ∧
    (connectWallet "1" "0xabc"
        { name := "My Token", symbol := "MTK", balance := 5 }
        initState).tokenData = initState.tokenData ∧
    (connectWallet "1" "0xabc"
        { name := "My Token", symbol := "MTK", balance := 5 }
        initState).balance = initState.balance) :=
  ⟨by decide,
   connectWallet_network_mismatch_aborts initState "1" "0xabc"
     { name := "My Token", symbol := "MTK", balance := 5 } (by decide)⟩

/-- C6, counterexample: a network error recorded by a failed connect
attempt is still set after a subsequent connect attempt on the matching
network — connectWallet never clears networkError. -/
theorem connect_retry_keeps_network_error_cex :
    (connectWallet HARDHAT_NETWORK_ID "0xabc"
        { name := "My Token", symbol := "MTK", balance := 5 }
        (connectWallet "1" "0xabc"
          { name := "My Token", symbol := "MTK", balance := 5 }
          initState)).networkError ≠ none := by
  decide

/-- C6, amended: a successful connect attempt leaves a previously set
networkError exactly as it was; the message is cleared only by the
dismissNetworkError intent (or by a full state reset). -/
theorem network_error_cleared_by_dismiss_only (s : DappState)
    (nv addr : String) (tok : TokenEnv) (hnv : nv = HARDHAT_NETWORK_ID) :
    (connectWallet nv addr tok s).networkError = s.networkError ∧
    (dismissNetworkError s).networkError = none := by
  rw [connectWallet_match_eq nv addr tok s hnv]
  exact ⟨rfl, rfl⟩

/-- C6, witness for the amended theorem on a state holding a prior
network error. -/
theorem network_error_cleared_by_dismiss_only_witness :
    "1337" = HARDHAT_NETWORK_ID ∧
    ((connectWallet "1337" "0xabc"
        { name := "My Token", symbol := "MTK", balance := 5 }
        { initState with
          networkError := some "Please connect Metamask to Localhost:8545" }).networkError =
      ({ initState with
         networkError := some "Please connect Metamask to Localhost:8545" } : DappState).networkError ∧
    (dismissNetworkError
        { initState with
          networkError := some "Please connect Metamask to Localhost:8545" }).networkError =
      none) :=
  ⟨by decide,
   network_error_cleared_by_dismiss_only
     { initState with
       networkError := some "Please connect Metamask to Localhost:8545" }
     "1337" "0xabc" { name := "My Token", symbol := "MTK", balance := 5 }
     (by decide)⟩

/-- C7: from any reachable state in which the connect intent can fire (no
address selected) and the network matches, the connect step leaves exactly
one installed polling timer; no timer was live at the moment of install
(a new timer is only installed after any prior one was cleared), and the
immediate balance read of startPollingData has already happened within
the connect step itself — the balance is set and the read counter is
incremented before any tick event can fire. -/
theorem connect_exactly_one_timer (s : DappState) (hr : Reachable s)
    (nv addr : String) (tok : TokenEnv)
    (hsel : s.selectedAddress = none) (hnv : nv = HARDHAT_NETWORK_ID) :
    s.activeTimers = [] ∧
    (step s (.connect nv addr tok)).activeTimers = [s.nextTimerId] ∧
    (step s (.connect nv addr tok)).activeTimers.length = 1 ∧
    (step s (.connect nv addr tok)).pollDataInterval = some s.nextTimerId ∧
    (step s (.connect nv addr tok)).balanceReads = s.balanceReads + 1 ∧
    (step s (.connect nv addr tok)).balance = some tok.balance := by
  have hinv := timerInv_reachable hr
  have hpoll : s.pollDataInterval = none := hinv.2.1 hsel
  have htimers : s.activeTimers = [] := by
    rw [hinv.1, hpoll]
    rfl
  have hstep : step s (.connect nv addr tok) =
      { initializeDapp addr tok s with
        handlerCount := (initializeDapp addr tok s).handlerCount + 1 } := by
    simp only [step]
    rw [if_pos hsel]
    exact connectWallet_match_eq nv addr tok s hnv
  rw [hstep]
  refine ⟨htimers, ?_, ?_, rfl, rfl, rfl⟩
  · show s.nextTimerId :: s.activeTimers = [s.nextTimerId]
    rw [htimers]
  · show (s.nextTimerId :: s.activeTimers).length = 1
    rw [htimers]
    rfl

/-- C7, witness: the first connect from the fresh component. -/
theorem connect_exactly_one_timer_witness :
    initState.activeTimers = [] ∧
    (step initState (.connect "1337" "0xabc"
        { name := "My Token", symbol := "MTK", balance := 5 })).activeTimers =
      [initState.nextTimerId] ∧
    (step initState (.connect "1337" "0xabc"
        { name := "My Token", symbol := "MTK", balance := 5 })).activeTimers.length = 1 ∧
    (step initState (.connect "1337" "0xabc"
        { name := "My Token", symbol := "MTK", balance := 5 })).pollDataInterval =
      some initState.nextTimerId ∧
    (step initState (.connect "1337" "0xabc"
        { name := "My Token", symbol := "MTK", balance := 5 })).balanceReads =
      initState.balanceReads + 1 ∧
    (step initState (.connect "1337" "0xabc"
        { name := "My Token", symbol := "MTK", balance := 5 })).balance =
      some ({ name := "My Token", symbol := "MTK", balance := 5 } : TokenEnv).balance :=
  connect_exactly_one_timer initState Reachable.init "1337" "0xabc"
    { name := "My Token", symbol := "MTK", balance := 5 } rfl rfl

/-- C8: when a listener fires, polling is halted first; with a new address
present the session is re-initialized — address stored, token data
re-fetched, a new polling timer installed while the old one is no longer
active — and with the address absent, or on a network change, the state is
fully reset: every data field empty and no timer left installed. -/
theorem change_handlers_halt_then_branch (s : DappState) (a : String)
    (tok : TokenEnv) (hinv : TimerInv s) :
    (handleAccountsChanged (some a) tok s).selectedAddress = some a ∧
    (handleAccountsChanged (some a) tok s).tokenData =
      some { name := tok.name, symbol := tok.symbol } ∧
    (handleAccountsChanged (some a) tok s).activeTimers = [s.nextTimerId] ∧
    (handleAccountsChanged (some a) tok s).pollDataInterval =
      some s.nextTimerId ∧
    (∀ oldId, s.pollDataInterval = some oldId →
      oldId ∉ (handleAccountsChanged (some a) tok s).activeTimers) ∧
    handleAccountsChanged none tok s =
      { s with tokenData := none, selectedAddress := none, balance := none,
               txBeingSent := none, transactionError := none,
               networkError := none, pollDataInterval := none,
               activeTimers := [] } ∧
    handleNetworkChanged s =
      { s with tokenData := none, selectedAddress := none, balance := none,
               txBeingSent := none, transactionError := none,
               networkError := none, pollDataInterval := none,
               activeTimers := [] } := by
  obtain ⟨h1, h2, h3⟩ := hinv
  have hstop := stopPollingData_spec s h1
  have hsome : handleAccountsChanged (some a) tok s =
      initializeDapp a tok
        { s with pollDataInterval := none, activeTimers := [] } := by
    show initializeDapp a tok (stopPollingData s) = _
    rw [hstop]
  have hnone : handleAccountsChanged none tok s =
      resetState { s with pollDataInterval := none, activeTimers := [] } := by
    show resetState (stopPollingData s) = _
    rw [hstop]
  have hnet : handleNetworkChanged s =
      resetState { s with pollDataInterval := none, activeTimers := [] } := by
    show resetState (stopPollingData s) = _
    rw [hstop]
  rw [hsome, hnone, hnet]
  refine ⟨rfl, rfl, rfl, rfl, ?_, rfl, rfl⟩
  intro oldId hold hmem
  have hmemS : oldId ∈ s.activeTimers := by
    rw [h1, hold]
    exact List.mem_singleton_self oldId
  have hlt : oldId < s.nextTimerId := h3 oldId hmemS
  have hmem2 : oldId ∈ s.nextTimerId :: ([] : List Nat) := hmem
  have hne : oldId = s.nextTimerId := by
    simpa using hmem2
  omega

/-- C8, witness on a connected state holding one live timer. -/
theorem change_handlers_halt_then_branch_witness :
    TimerInv
      { initState with
        selectedAddress := some "0xabc", pollDataInterval := some 0,
        activeTimers := [0], nextTimerId := 1 } ∧
    ((handleAccountsChanged (some "0xdef")
        { name := "My Token", symbol := "MTK", balance := 5 }
        { initState with
          selectedAddress := some "0xabc", pollDataInterval := some 0,
          activeTimers := [0], nextTimerId := 1 }).selectedAddress =
      some "0xdef" ∧
    (handleAccountsChanged (some "0xdef")
        { name := "My Token", symbol := "MTK", balance := 5 }
        { initState with
          selectedAddress := some "0xabc", pollDataInterval := some 0,
          activeTimers := [0], nextTimerId := 1 }).tokenData =
      some { name := "My Token", symbol := "MTK" } ∧
    (handleAccountsChanged (some "0xdef")
        { name := "My Token", symbol := "MTK", balance := 5 }
        { initState with
          selectedAddress := some "0xabc", pollDataInterval := some 0,
          activeTimers := [0], nextTimerId := 1 }).activeTimers = [1] ∧
    (handleAccountsChanged (some "0xdef")
        { name := "My Token", symbol := "MTK", balance := 5 }
        { initState with
          selectedAddress := some "0xabc", pollDataInterval := some 0,
          activeTimers := [0], nextTimerId := 1 }).pollDataInterval =
      some 1 ∧
    (∀ oldId,
      ({ initState with
         selectedAddress := some "0xabc", pollDataInterval := some 0,
         activeTimers := [0], nextTimerId := 1 } : DappState).pollDataInterval =
        some oldId →
      oldId ∉ (handleAccountsChanged (some "0xdef")
        { name := "My Token", symbol := "MTK", balance := 5 }
        { initState with
          selectedAddress := some "0xabc", pollDataInterval := some 0,
          activeTimers := [0], nextTimerId := 1 }).activeTimers) ∧
    handleAccountsChanged none
        { name := "My Token", symbol := "MTK", balance := 5 }
        { initState with
          selectedAddress := some "0xabc", pollDataInterval := some 0,
          activeTimers := [0], nextTimerId := 1 } =
      { ({ initState with
           selectedAddress := some "0xabc", pollDataInterval := some 0,
           activeTimers := [0], nextTimerId := 1 } : DappState) with
        tokenData := none, selectedAddress := none, balance := none,
        txBeingSent := none, transactionError := none, networkError := none,
        pollDataInterval := none, activeTimers := [] } ∧
    handleNetworkChanged
        { initState with
          selectedAddress := some "0xabc", pollDataInterval := some 0,
          activeTimers := [0], nextTimerId := 1 } =
      { ({ initState with
           selectedAddress := some "0xabc", pollDataInterval := some 0,
           activeTimers := [0], nextTimerId := 1 } : DappState) with
        tokenData := none, selectedAddress := none, balance := none,
        txBeingSent := none, transactionError := none, networkError := none,
        pollDataInterval := none, activeTimers := [] }) :=
  ⟨⟨rfl, fun h => absurd h (by simp), by decide⟩,
   change_handlers_halt_then_branch
     { initState with
       selectedAddress := some "0xabc", pollDataInterval := some 0,
       activeTimers := [0], nextTimerId := 1 }
     "0xdef" { name := "My Token", symbol := "MTK", balance := 5 }
     ⟨rfl, fun h => absurd h (by simp), by decide⟩⟩


/-- C9: reset is atomic — immediately after resetState the session address,
token data, balance, pending transaction, and both error fields are all
simultaneously empty, so a state with no session has no token snapshot, no
balance reading, and no pending transaction. -/
theorem resetState_all_fields_empty (s : DappState) :
    (resetState s).selectedAddress = none ∧
    (resetState s).tokenData = none ∧
    (resetState s).balance = none ∧
    (resetState s).txBeingSent = none ∧
    (resetState s).transactionError = none ∧
    (resetState s).networkError = none :=
  ⟨rfl, rfl, rfl, rfl, rfl, rfl⟩

/-- C10: on every non-negative loaded balance exactly one of balanceZero
and balanceGreaterZero is true, and balanceGreaterZero is the negation of
balanceZero, so exactly one of the no-tokens view and the transfer form is
shown. -/
theorem balanceZero_balanceGreaterZero_exclusive (balance : Nat) :
    ((balanceZero balance = true ∧ balanceGreaterZero balance = false) ∨
     (balanceZero balance = false ∧ balanceGreaterZero balance = true)) ∧
    balanceGreaterZero balance = !balanceZero balance := by
  by_cases hb : balance = 0
  · subst hb
    exact ⟨Or.inl ⟨rfl, rfl⟩, rfl⟩
  · have hz : balanceZero balance = false := by
      simp [balanceZero, hb]
    have hg : balanceGreaterZero balance = true := by
      simp [balanceGreaterZero, Nat.pos_of_ne_zero hb]
    exact ⟨Or.inr ⟨hz, hg⟩, by simp [hz, hg]⟩
